import Mathlib

/-
  Verification of the HestiaSDK connectivity and entity-synchronization
  subsystem.

  The development shallowly embeds the relevant C++ code:
    - HAIoTBridge (entity bridge: write / onChange / readMQTT / shortenKey,
      from HAIotBridge.cpp),
    - the WiFi guard tryWiFiConnectNonBlocking_V2 and the MQTT guard
      tryMQTTConnectNonBlocking (from HestiaNetSDK.cpp),
    - the discovery publisher MQTTDiscovery (from HestiaNetSDK.cpp).

  Modelling conventions:
    - Arduino String is modelled by the Lean String type (entity names,
      topics and payloads in this firmware are ASCII).
    - The uint8_t counters are modelled as Nat with explicit reduction
      modulo 256 where the C++ code can overflow.
    - millis() is modelled by a Nat supplied to each poll; the unsigned
      subtraction millis() - t of the code is modelled by truncated Nat
      subtraction, which agrees with the C++ value whenever time is
      monotone (t is a past reading of millis()).
    - Side effects (NVS writes, MQTT publications) are modelled as an
      ordered list of Effect values returned by each operation.
    - Calls into external libraries (WiFi driver, MQTT client, JSON
      parser, random jitter) are modelled as inputs of the step
      functions.
-/

/-- Behavior model for Home Assistant entities (enum TypeHA). -/
inductive TypeHA : Type where
  | HA_CONTROL
  | HA_INDICATOR
  | HA_BUTTON
  | HA_ENTITIES
deriving DecidableEq

/-- Side effects performed by the entity bridge: an NVS write of a
key/value pair, or an MQTT publication on a topic. -/
inductive Effect : Type where
  | putNvs (key val : String)
  | publish (topic val : String)
deriving DecidableEq

/-- State of one HAIoTBridge entity (the private data of the C++ class). -/
structure HAIoTBridge : Type where
  name : String
  type : TypeHA
  topicTo : String
  topicFrom : String
  resolution : String
  defaultValue : String
  decimals : Nat
  nvsKey : String
  value : String
  valueMem : String
  initialized : Bool
  logWrites : Bool
deriving DecidableEq

/-- Static configuration describing an entity (struct BridgeConfig).
Null char pointers are modelled as none. -/
structure BridgeConfig : Type where
  name : String
  type : TypeHA
  topicTo : Option String
  topicFrom : Option String
  resolution : Option String
  defaultValue : Option String

/-- Position of the first dot of a character list, if any. -/
def dotIndex : List Char → Option Nat
  | [] => none
  | c :: cs =>
      if c = '.' then some 0
      else match dotIndex cs with
        | none => none
        | some p => some (p + 1)

/-- HAIoTBridge::computeDecimals: number of characters after the first
dot of the resolution string, 0 when there is no dot. -/
def HAIoTBridge.computeDecimals (res : String) : Nat :=
  match dotIndex res.data with
  | none => 0
  | some p => res.length - p - 1

/-- Loop body of HAIoTBridge::isFloatLike after the optional leading
minus sign: at most one dot, digits only, at least one digit. -/
def floatBody : List Char → Bool → Bool → Bool
  | [], _, digitSeen => digitSeen
  | c :: cs, pointSeen, digitSeen =>
      if c = '.' then
        if pointSeen then false else floatBody cs true digitSeen
      else if '0' ≤ c ∧ c ≤ '9' then floatBody cs pointSeen true
      else false

/-- HAIoTBridge::isFloatLike: optional leading minus, at most one dot,
at least one digit, nothing else. -/
def HAIoTBridge.isFloatLike (s : String) : Bool :=
  match s.data with
  | [] => false
  | '-' :: cs => floatBody cs false false
  | cs => floatBody cs false false

/-- Sum of the character codes accumulated in a uint8_t, as in the loop
of HAIoTBridge::shortenKey (the accumulator wraps modulo 256). -/
def sum8 (s : String) : Nat :=
  s.data.foldl (fun a c => (a + c.toNat) % 256) 0

/-- HAIoTBridge::shortenKey: keep the name when it fits in 15
characters, otherwise keep the last 14 characters and append the
checksum digit computed with the 8-bit accumulator. -/
def HAIoTBridge.shortenKey (full : String) : String :=
  if full.length ≤ 15 then full
  else String.mk (full.data.drop (full.length - 14)) ++ toString (sum8 full % 10)

/-- Constructor HAIoTBridge::HAIoTBridge(const BridgeConfig&): null
pointers become empty strings, decimals come from the resolution and
the NVS key is the shortened name. -/
def mkBridge (cfg : BridgeConfig) : HAIoTBridge :=
  { name := cfg.name
    type := cfg.type
    topicTo := cfg.topicTo.getD ""
    topicFrom := cfg.topicFrom.getD ""
    resolution := cfg.resolution.getD ""
    defaultValue := cfg.defaultValue.getD ""
    decimals := HAIoTBridge.computeDecimals (cfg.resolution.getD "")
    nvsKey := HAIoTBridge.shortenKey cfg.name
    value := ""
    valueMem := ""
    initialized := false
    logWrites := true }

/-- HAIoTBridge::publish: publish on the outbound topic, or do nothing
when no outbound topic is configured. -/
def HAIoTBridge.publishEff (e : HAIoTBridge) (val : String) : List Effect :=
  if e.topicTo.length = 0 then [] else [Effect.publish e.topicTo val]

/-- HAIoTBridge::saveAndPublish: persist to NVS for HA_CONTROL bridges
whose key fits the 15-character limit, then publish. -/
def HAIoTBridge.saveAndPublish (e : HAIoTBridge) (val : String) : List Effect :=
  (if e.nvsKey.length ≤ 15 ∧ e.type = TypeHA.HA_CONTROL
    then [Effect.putNvs e.nvsKey val] else []) ++ e.publishEff val

/-- HAIoTBridge::write(const String&): store the value, mirror it into
the last-value marker, then save-and-publish for HA_CONTROL and publish
only for the other kinds. Returns the new entity state and the ordered
list of side effects. -/
def HAIoTBridge.write (e : HAIoTBridge) (v : String) : HAIoTBridge × List Effect :=
  let e1 : HAIoTBridge := { e with value := v, valueMem := v }
  if e1.type = TypeHA.HA_CONTROL then (e1, e1.saveAndPublish v)
  else (e1, e1.publishEff v)

/-- HAIoTBridge::onChange: empty values never report a change;
HA_BUTTON clears itself and reports once; the other kinds compare the
current value with the last-acknowledged value and update the marker. -/
def HAIoTBridge.onChange (e : HAIoTBridge) : HAIoTBridge × Bool :=
  if e.value.isEmpty then (e, false)
  else if e.type = TypeHA.HA_BUTTON then
    ({ e with value := "", valueMem := "" }, true)
  else if e.value = e.valueMem then (e, false)
  else ({ e with valueMem := e.value }, true)

/-- Result of HAIoTBridge::readMQTT: updated entity, ordered side
effects and the consumed flag returned by the function. -/
structure ReadResult : Type where
  bridge : HAIoTBridge
  effects : List Effect
  consumed : Bool
deriving DecidableEq

/-- HAIoTBridge::readMQTT(topic, payload, flushMode): eligibility check
(inbound topic present, not an indicator), flush gate (only HA_ENTITIES
pass while flushing), topic match, then the payload becomes the new
value and HA_CONTROL bridges save-and-publish. -/
def HAIoTBridge.readMQTT (e : HAIoTBridge) (topic payload : String)
    (flushMode : Bool) : ReadResult :=
  if e.topicFrom.isEmpty ∨ e.type = TypeHA.HA_INDICATOR then ⟨e, [], false⟩
  else if flushMode = true ∧ e.type ≠ TypeHA.HA_ENTITIES then ⟨e, [], false⟩
  else if topic ≠ e.topicFrom then ⟨e, [], false⟩
  else
    let e1 : HAIoTBridge := { e with value := payload }
    if e1.type = TypeHA.HA_CONTROL then ⟨e1, e1.saveAndPublish payload, true⟩
    else ⟨e1, [], true⟩

/-- Backoff delay shared by both retry engines of HestiaNetSDK.cpp:
100 << n plus the random jitter while n is at most 5, then the fixed
10000 ceiling. The jitter argument stands for random(0, 50). -/
def backoff (tryCount jitter : Nat) : Nat :=
  if tryCount ≤ 5 then 100 * 2 ^ tryCount + jitter else 10000

/-- Function-local static state of tryWiFiConnectNonBlocking_V2. -/
structure WifiState : Type where
  lastAttempt : Nat
  lastReset : Nat
  tryCount : Nat
  delayNext : Nat
  connecting : Bool
  ssidVisible : Bool
  lastScan : Nat
deriving DecidableEq

/-- Initial values of the static variables of the WiFi guard. -/
def WifiState.start : WifiState :=
  { lastAttempt := 0, lastReset := 0, tryCount := 0, delayNext := 100
    connecting := false, ssidVisible := true, lastScan := 0 }

/-- Environment observed by one WiFi guard poll: the millis() clock,
whether WiFi.status() is WL_CONNECTED, whether a diagnostic scan finds
the configured SSID, and the random(0, 50) jitter draw. -/
structure WifiIn : Type where
  now : Nat
  connected : Bool
  scanFinds : Bool
  jitter : Nat
deriving DecidableEq

/-- Result of one WiFi guard poll: new static state, the boolean return
value, and whether this poll issued a WiFi.begin attach call. -/
structure WifiOut : Type where
  state : WifiState
  result : Bool
  attach : Bool
deriving DecidableEq

/-- Sections 6 and 7 of tryWiFiConnectNonBlocking_V2: issue the
WiFi.begin attach call, mark the attempt in flight, bump the uint8_t
attempt counter and recompute the backoff delay, stamping lastAttempt
with the current clock. -/
def wifiLaunch (s2 : WifiState) (i : WifiIn) : WifiOut :=
  ⟨{ s2 with connecting := true, tryCount := (s2.tryCount + 1) % 256,
             delayNext := backoff ((s2.tryCount + 1) % 256) i.jitter,
             lastAttempt := i.now }, false, true⟩

/-- Sections 4 and 5 of tryWiFiConnectNonBlocking_V2: the two anti-spam
gates (8000 time-units while an attempt is in flight, and the computed
backoff delay since the last attempt), then the periodic driver-reset
bookkeeping, then the attach call. -/
def wifiAttachPhase (s1 : WifiState) (i : WifiIn) : WifiOut :=
  if s1.connecting = true ∧ i.now - s1.lastAttempt < 8000 then ⟨s1, false, false⟩
  else if i.now - s1.lastAttempt < s1.delayNext then ⟨s1, false, false⟩
  else
    wifiLaunch
      (if 5000 < i.now - s1.lastReset then { s1 with lastReset := i.now } else s1) i

/-- One poll of tryWiFiConnectNonBlocking_V2 (HestiaNetSDK.cpp):
connected short-circuit, scan cooldown, diagnostic scan after repeated
failures (resetting the attempt counter when the SSID is seen), then
the attach phase with its anti-spam gates, driver reset bookkeeping and
new attach attempt with exponential backoff. -/
def tryWiFiConnectNonBlocking_V2 (s : WifiState) (i : WifiIn) : WifiOut :=
  if i.connected then
    ⟨{ s with tryCount := 0, delayNext := 100, connecting := false }, true, false⟩
  else if s.ssidVisible = false ∧ i.now - s.lastScan < 30000 then ⟨s, false, false⟩
  else if 5 ≤ s.tryCount ∧ 30000 < i.now - s.lastScan ∧ i.scanFinds = false then
    ⟨{ s with lastScan := i.now, ssidVisible := false }, false, false⟩
  else if 5 ≤ s.tryCount ∧ 30000 < i.now - s.lastScan then
    wifiAttachPhase { s with lastScan := i.now, ssidVisible := true, tryCount := 0 } i
  else
    wifiAttachPhase s i

/-- State reached by the WiFi guard after a sequence of polls. -/
def runWifi (s : WifiState) (ins : List WifiIn) : WifiState :=
  ins.foldl (fun t i => (tryWiFiConnectNonBlocking_V2 t i).state) s

/-- Function-local static state of tryMQTTConnectNonBlocking. -/
structure MqttState : Type where
  initDone : Bool
  wasConnected : Bool
  lastAttempt : Nat
  tryCount : Nat
  nextDelay : Nat
deriving DecidableEq

/-- Initial values of the static variables of the MQTT guard. -/
def MqttState.start : MqttState :=
  { initDone := false, wasConnected := false, lastAttempt := 0
    tryCount := 0, nextDelay := 100 }

/-- Environment observed by one MQTT guard poll: the millis() clock,
whether WiFi.status() is WL_CONNECTED, whether client.connected() holds
at entry, whether a client.connect() call issued now would succeed, and
the random(0, 50) jitter draw. -/
structure MqttIn : Type where
  now : Nat
  wifiConnected : Bool
  clientConnected : Bool
  connectOk : Bool
  jitter : Nat
deriving DecidableEq

/-- One poll of tryMQTTConnectNonBlocking (HestiaNetSDK.cpp): WiFi
precondition, one-shot client setup, connected short-circuit with the
first-observation reset, backoff gate, connect attempt that returns
false even on success, and backoff update on failure. -/
def tryMQTTConnectNonBlocking (s : MqttState) (i : MqttIn) : MqttState × Bool :=
  if i.wifiConnected = false then (s, false)
  else
    let s0 : MqttState := { s with initDone := true }
    if i.clientConnected then
      if s0.wasConnected = false then
        ({ s0 with wasConnected := true, tryCount := 0, nextDelay := 100 }, true)
      else (s0, true)
    else
      let s1 : MqttState := { s0 with wasConnected := false }
      if i.now - s1.lastAttempt < s1.nextDelay then (s1, false)
      else
        let s2 : MqttState := { s1 with lastAttempt := i.now }
        if i.connectOk then
          ({ s2 with wasConnected := true, tryCount := 0, nextDelay := 100 }, false)
        else
          let tc : Nat := (s2.tryCount + 1) % 256
          ({ s2 with tryCount := tc, nextDelay := backoff tc i.jitter }, false)

/-- Shallow JSON values, standing for the documents produced by
deserializeJson in MQTTDiscovery. -/
inductive JsonVal : Type where
  | obj (fields : List (String × JsonVal))
  | arr (items : List JsonVal)
  | str (s : String)
  | num (n : Int)
  | boolean (b : Bool)
  | nul

/-- Lookup of a top-level key in a JSON document: some value when the
document is an object containing the key, none otherwise (this is
containsKey combined with operator[] of ArduinoJson). -/
def lookupKey : JsonVal → String → Option JsonVal
  | JsonVal.obj fields, k => fields.lookup k
  | _, _ => none

/-- Test corresponding to is JsonObject on an optional lookup result. -/
def isJsonObject : Option JsonVal → Bool
  | some (JsonVal.obj _) => true
  | _ => false

/-- One MQTT publication request: topic, payload, retained flag and
quality-of-service level, as passed to client.publish. -/
structure PublishCall : Type where
  topic : String
  payload : String
  retained : Bool
  qos : Nat
deriving DecidableEq

/-- MQTTDiscovery (HestiaNetSDK.cpp): abort when the client is offline,
when no discovery payload was injected, when the payload does not parse
as JSON, when the device entry is missing or not an object, or when the
cmps entry is missing, not an object or empty; otherwise publish the
payload retained at quality-of-service 1. The parseJson argument models
deserializeJson, returning none when the text is not well formed. -/
def MQTTDiscovery (clientConnected : Bool) (gDiscoveryJson : Option String)
    (parseJson : String → Option JsonVal) (deviceId : String) : Option PublishCall :=
  if clientConnected = false then none
  else
    match gDiscoveryJson with
    | none => none
    | some payload =>
      match parseJson payload with
      | none => none
      | some doc =>
        if isJsonObject (lookupKey doc "device") = false then none
        else
          match lookupKey doc "cmps" with
          | some (JsonVal.obj cmps) =>
              if cmps.length = 0 then none
              else some ⟨"homeassistant/device/" ++ deviceId ++ "/config",
                         payload, true, 1⟩
          | _ => none

/-- Entity used to exhibit the missing normalization in write: an
HA_CONTROL entity with resolution 0.01, hence two configured decimals. -/
def c2Bridge : HAIoTBridge :=
  mkBridge ⟨"valve_target", TypeHA.HA_CONTROL, some "s/valve", some "c/valve",
            some "0.01", some "0"⟩

/-- Witness for readMQTT_frame: an indicator entity never consumes, and
its state and effects are untouched. -/
def c10Bridge : HAIoTBridge :=
  mkBridge ⟨"temp", TypeHA.HA_INDICATOR, some "s/temp", some "c/temp", none, none⟩

/-- Spec-side description of the tail kept by the shortening scheme:
the last n characters of the string, phrased independently of the code
(take from the reversed character list). -/
def lastChars (n : Nat) (s : String) : String :=
  String.mk ((s.data.reverse.take n).reverse)

/-- Spec-side checksum of the claim: the plain (unbounded) sum of the
character codes of the identifier. -/
def charSum (s : String) : Nat :=
  s.data.foldl (fun a c => a + c.toNat) 0

/-- Control entity used to witness readMQTT_dispatch_spec. -/
def c1Bridge : HAIoTBridge :=
  mkBridge ⟨"sw", TypeHA.HA_CONTROL, some "s/sw", some "c/sw", none, none⟩

/-- Trigger entity used to witness trigger_onChange_once. -/
def c3Bridge : HAIoTBridge :=
  mkBridge ⟨"btn", TypeHA.HA_BUTTON, some "s/btn", none, none, none⟩

/-- Reachable state used against the C9 claim: a Control entity whose
value was set to "ON" by a local write and then overwritten with an
empty payload by a consumed dispatch (readMQTT assigns the payload to
the current value without touching the acknowledged marker). -/
def c9After : HAIoTBridge :=
  (((mkBridge ⟨"pump", TypeHA.HA_CONTROL, some "s/pump", some "c/pump",
      none, none⟩).write "ON").1.readMQTT "c/pump" "" false).bridge

/-- Non-Trigger entity with a fresh unacknowledged value, used to
witness onChange_nonTrigger_spec. -/
def c9Fresh : HAIoTBridge :=
  ((mkBridge ⟨"mode", TypeHA.HA_CONTROL, some "s/mode", some "c/mode",
      none, none⟩).readMQTT "c/mode" "AUTO" false).bridge

/-- C4: for both retry engines (which both compute their next delay with
backoff), an attempt count n at most 5 yields a delay in the half-open
interval from 100 * 2 ^ n (inclusive) to 100 * 2 ^ n + 50 (exclusive),
and an attempt count above 5 yields the fixed 10000 ceiling. The
hypothesis bounds the jitter as random(0, 50) does. -/
theorem backoff_bounds (n jitter : Nat) (hj : jitter < 50) :
    (n ≤ 5 → 100 * 2 ^ n ≤ backoff n jitter ∧ backoff n jitter < 100 * 2 ^ n + 50) ∧
    (5 < n → backoff n jitter = 10000) := by
  unfold backoff
  split_ifs with h
  · exact ⟨fun _ => ⟨Nat.le_add_right _ _, Nat.add_lt_add_left hj _⟩,
      fun h2 => absurd h (by omega)⟩
  · exact ⟨fun h2 => absurd h2 h, fun _ => rfl⟩

/-- Witness for backoff_bounds at attempt counts 3 and 6 with jitter 7. -/
theorem backoff_bounds_witness :
    (100 * 2 ^ 3 ≤ backoff 3 7 ∧ backoff 3 7 < 100 * 2 ^ 3 + 50) ∧
    backoff 6 7 = 10000 :=
  ⟨(backoff_bounds 3 7 (by decide)).1 (by decide),
   (backoff_bounds 6 7 (by decide)).2 (by decide)⟩

/-- C2: evaluation at the failing input. The entity is configured with
two decimals and the input "1.5" is float-like, yet write stores it
verbatim with a single fractional digit: the String overload of write
never calls normalize, contradicting the header documentation (the
normalization promised by the claim exists only in the float overload).
The remaining parts of the claim do hold here: the value is persisted
to NVS before being published and the last-value marker is updated. -/
theorem write_skips_normalization :
    c2Bridge.decimals = 2 ∧
    HAIoTBridge.isFloatLike "1.5" = true ∧
    (c2Bridge.write "1.5").1.value = "1.5" ∧
    HAIoTBridge.computeDecimals "1.5" = 1 ∧
    (c2Bridge.write "1.5").1.valueMem = "1.5" ∧
    (c2Bridge.write "1.5").2 =
      [Effect.putNvs "valve_target" "1.5", Effect.publish "s/valve" "1.5"] := by
  decide

/-- C10: every readMQTT call that does not consume the message leaves
the entity state (current value, marker, initialized flag, every other
field) untouched and performs no side effect, in particular no NVS
write. -/
theorem readMQTT_frame (e : HAIoTBridge) (topic payload : String) (flush : Bool)
    (h : (e.readMQTT topic payload flush).consumed = false) :
    (e.readMQTT topic payload flush).bridge = e ∧
    (e.readMQTT topic payload flush).effects = [] := by
  unfold HAIoTBridge.readMQTT at *
  split_ifs at h ⊢
  · simp_all
  · simp_all
  · simp_all
  · by_cases hc : e.type = TypeHA.HA_CONTROL <;> simp_all

theorem readMQTT_frame_witness :
    (c10Bridge.readMQTT "c/temp" "21" false).bridge = c10Bridge ∧
    (c10Bridge.readMQTT "c/temp" "21" false).effects = [] :=
  readMQTT_frame c10Bridge "c/temp" "21" false (by decide)

/-- C8 counterexample: for the 16-character identifier made of 16 times
the letter a, the sum of the character codes is 1552, so the digit the
claim prescribes is 1552 % 10 = 2; the code accumulates the sum in a
uint8_t, giving 1552 % 256 = 16 and the digit 6, so the produced key
ends in 6, not 2. -/
theorem shortenKey_checksum_counterexample :
    HAIoTBridge.shortenKey "aaaaaaaaaaaaaaaa" = "aaaaaaaaaaaaaa6" ∧
    charSum "aaaaaaaaaaaaaaaa" % 10 = 2 ∧
    lastChars 14 "aaaaaaaaaaaaaaaa" ++ toString (charSum "aaaaaaaaaaaaaaaa" % 10)
      = "aaaaaaaaaaaaaa2" ∧
    ("aaaaaaaaaaaaaa6" : String) ≠ "aaaaaaaaaaaaaa2" := by
  decide

/-- C8 as amended: for every identifier longer than 15 characters, the
derived key is the last 14 characters of the identifier followed by the
checksum digit of the 8-bit accumulated character-code sum taken modulo
10, and the key has exactly 15 characters. Determinism is immediate:
shortenKey is a pure function of the identifier. -/
theorem shortenKey_spec (s : String) (h : 15 < s.length) :
    HAIoTBridge.shortenKey s = lastChars 14 s ++ toString (sum8 s % 10) ∧
    (HAIoTBridge.shortenKey s).length = 15 := by
  have hlen : s.length = s.data.length := rfl
  have h14 : 14 ≤ s.data.length := by omega
  have hkey : HAIoTBridge.shortenKey s = lastChars 14 s ++ toString (sum8 s % 10) := by
    unfold HAIoTBridge.shortenKey lastChars
    rw [if_neg (by omega)]
    have hr := List.rtake_eq_reverse_take_reverse (l := s.data) (n := 14)
    unfold List.rtake at hr
    rw [hlen, hr]
  refine ⟨hkey, ?_⟩
  rw [hkey]
  have hm : sum8 s % 10 < 10 := Nat.mod_lt _ (by norm_num)
  have hds : (toString (sum8 s % 10)).length = 1 := by
    set m := sum8 s % 10 with hmdef
    interval_cases m <;> rfl
  have hlc : (lastChars 14 s).length = 14 := by
    show ((s.data.reverse.take 14).reverse).length = 14
    rw [List.length_reverse, List.length_take, List.length_reverse]
    omega
  rw [String.length_append, hds, hlc]

/-- C1: characterization of readMQTT. The message is consumed exactly
when the entity has an inbound topic, is not an indicator, passes the
flush gate (only HA_ENTITIES while flushing) and the topic matches; a
consumed message becomes the current value and is persisted to NVS for
HA_CONTROL entities. In particular a flush-window dispatch to an
HA_CONTROL entity returns false while the identical call outside the
window returns true. The hypothesis on the key length is established by
the constructor, whose shortened keys always fit 15 characters. -/
theorem readMQTT_dispatch_spec (e : HAIoTBridge) (topic payload : String)
    (flush : Bool) (hk : e.nvsKey.length ≤ 15) :
    ((e.readMQTT topic payload flush).consumed = true ↔
      (e.topicFrom.isEmpty = false ∧ e.type ≠ TypeHA.HA_INDICATOR ∧
        (flush = true → e.type = TypeHA.HA_ENTITIES) ∧ topic = e.topicFrom)) ∧
    ((e.readMQTT topic payload flush).consumed = true →
      (e.readMQTT topic payload flush).bridge.value = payload ∧
      (e.type = TypeHA.HA_CONTROL →
        Effect.putNvs e.nvsKey payload ∈ (e.readMQTT topic payload flush).effects)) ∧
    (e.type = TypeHA.HA_CONTROL → (e.readMQTT topic payload true).consumed = false) ∧
    (e.type = TypeHA.HA_CONTROL → e.topicFrom.isEmpty = false →
      topic = e.topicFrom → (e.readMQTT topic payload false).consumed = true) := by
  by_cases hf : e.topicFrom.isEmpty = true <;>
  by_cases hi : e.type = TypeHA.HA_INDICATOR <;>
  by_cases hfl : flush = true <;>
  by_cases hent : e.type = TypeHA.HA_ENTITIES <;>
  by_cases hm : topic = e.topicFrom <;>
  by_cases hc : e.type = TypeHA.HA_CONTROL <;>
  simp_all [HAIoTBridge.readMQTT, HAIoTBridge.saveAndPublish, HAIoTBridge.publishEff]

/-- Witness for readMQTT_dispatch_spec: a matching dispatch to a
Control entity is consumed outside the flush window and rejected inside
it. -/
theorem readMQTT_dispatch_spec_witness :
    (c1Bridge.readMQTT "c/sw" "ON" false).consumed = true ∧
    (c1Bridge.readMQTT "c/sw" "ON" true).consumed = false :=
  ⟨(readMQTT_dispatch_spec c1Bridge "c/sw" "ON" false (by decide)).2.2.2
      (by decide) (by decide) (by decide),
   (readMQTT_dispatch_spec c1Bridge "c/sw" "ON" true (by decide)).2.2.1
      (by decide)⟩

/-- C3: a Trigger (HA_BUTTON) entity reports a change exactly once per
non-empty write. The first onChange after the write returns true and
clears the value; the state with an empty value is a fixed point on
which every further onChange returns false, until the next non-empty
write. -/
theorem trigger_onChange_once (e : HAIoTBridge) (v : String)
    (ht : e.type = TypeHA.HA_BUTTON) (hv : v.isEmpty = false) :
    (((e.write v).1.onChange)).2 = true ∧
    (((e.write v).1.onChange)).1.value = "" ∧
    (((e.write v).1.onChange)).1.valueMem = "" ∧
    (∀ e2 : HAIoTBridge, e2.value = "" → e2.onChange = (e2, false)) := by
  refine ⟨?_, ?_, ?_, ?_⟩
  · simp [HAIoTBridge.write, HAIoTBridge.onChange, ht, hv]
  · simp [HAIoTBridge.write, HAIoTBridge.onChange, ht, hv]
  · simp [HAIoTBridge.write, HAIoTBridge.onChange, ht, hv]
  · intro e2 h2
    have hemp : ("" : String).isEmpty = true := by decide
    simp [HAIoTBridge.onChange, h2, hemp]

/-- Witness for trigger_onChange_once: after one non-empty write, the
first onChange reports true and the second reports false. -/
theorem trigger_onChange_once_witness :
    (((c3Bridge.write "PRESS").1.onChange)).2 = true ∧
    ((((c3Bridge.write "PRESS").1.onChange)).1.onChange).2 = false := by
  have h := trigger_onChange_once c3Bridge "PRESS" (by decide) (by decide)
  refine ⟨h.1, ?_⟩
  rw [h.2.2.2 _ h.2.1]

/-- C9 counterexample: on this reachable non-Trigger entity the current
value (empty) differs from the last-acknowledged value ("ON"), yet
onChange returns false, because empty values are ignored before the
comparison. -/
theorem onChange_empty_counterexample :
    c9After.type ≠ TypeHA.HA_BUTTON ∧
    c9After.value ≠ c9After.valueMem ∧
    (c9After.onChange).2 = false := by
  decide

/-- C9 as amended: for a non-Trigger entity, onChange returns true if
and only if the current value is non-empty and differs from the
last-acknowledged value; when it returns true it copies the current
value into the acknowledged marker, so an immediately repeated call
returns false. -/
theorem onChange_nonTrigger_spec (e : HAIoTBridge)
    (ht : e.type ≠ TypeHA.HA_BUTTON) :
    ((e.onChange).2 = true ↔
      (e.value.isEmpty = false ∧ e.value ≠ e.valueMem)) ∧
    ((e.onChange).2 = true →
      (e.onChange).1.valueMem = e.value ∧ (e.onChange).1.value = e.value ∧
      (((e.onChange).1).onChange).2 = false) := by
  by_cases hemp : e.value.isEmpty = true <;>
  by_cases heq : e.value = e.valueMem <;>
  simp_all [HAIoTBridge.onChange]

/-- Witness for onChange_nonTrigger_spec: the first onChange on a
changed value reports true, the repeated call reports false. -/
theorem onChange_nonTrigger_spec_witness :
    (c9Fresh.onChange).2 = true ∧ (((c9Fresh.onChange).1).onChange).2 = false := by
  have h := onChange_nonTrigger_spec c9Fresh (by decide)
  have h1 : (c9Fresh.onChange).2 = true := h.1.mpr (by decide)
  exact ⟨h1, (h.2 h1).2.2⟩

/-- Gate facts of the attach phase: whenever it issues an attach call,
both anti-spam gates were passed, the attempt is marked in flight and
lastAttempt is stamped with the poll clock. -/
theorem attachPhase_gates (s1 : WifiState) (i : WifiIn)
    (h : (wifiAttachPhase s1 i).attach = true) :
    (s1.connecting = true → 8000 ≤ i.now - s1.lastAttempt) ∧
    s1.delayNext ≤ i.now - s1.lastAttempt ∧
    (wifiAttachPhase s1 i).state.connecting = true ∧
    (wifiAttachPhase s1 i).state.lastAttempt = i.now := by
  unfold wifiAttachPhase wifiLaunch at *
  split_ifs at h ⊢ with hg1 hg2 hr
  · refine ⟨fun hcn => ?_, by omega, rfl, rfl⟩
    have hnl : ¬(i.now - s1.lastAttempt < 8000) := fun hlt => hg1 ⟨hcn, hlt⟩
    omega
  · refine ⟨fun hcn => ?_, by omega, rfl, rfl⟩
    have hnl : ¬(i.now - s1.lastAttempt < 8000) := fun hlt => hg1 ⟨hcn, hlt⟩
    omega

/-- Gate facts at any poll that issues an attach call: the in-flight
gate and the backoff gate were both passed, and the step records the
attach (connecting set, lastAttempt stamped with the poll clock). -/
theorem wifi_attach_gates (s : WifiState) (i : WifiIn)
    (h : (tryWiFiConnectNonBlocking_V2 s i).attach = true) :
    (s.connecting = true → 8000 ≤ i.now - s.lastAttempt) ∧
    s.delayNext ≤ i.now - s.lastAttempt ∧
    (tryWiFiConnectNonBlocking_V2 s i).state.connecting = true ∧
    (tryWiFiConnectNonBlocking_V2 s i).state.lastAttempt = i.now := by
  unfold tryWiFiConnectNonBlocking_V2 at *
  split_ifs at h ⊢ with h1 h2 h3 h4
  · exact attachPhase_gates _ i h
  · exact attachPhase_gates _ i h

/-- The attach phase preserves the in-flight marker and never moves
lastAttempt backwards below a past attach time. -/
theorem attachPhase_inv (s1 : WifiState) (i : WifiIn) (t : Nat)
    (h1 : s1.connecting = true) (h2 : t ≤ s1.lastAttempt) :
    (wifiAttachPhase s1 i).state.connecting = true ∧
    t ≤ (wifiAttachPhase s1 i).state.lastAttempt := by
  unfold wifiAttachPhase wifiLaunch
  split_ifs with hg1 hg2 hr
  · exact ⟨h1, h2⟩
  · exact ⟨h1, h2⟩
  · refine ⟨rfl, ?_⟩
    have hnl : ¬(i.now - s1.lastAttempt < 8000) := fun hlt => hg1 ⟨h1, hlt⟩
    show t ≤ i.now
    omega
  · refine ⟨rfl, ?_⟩
    have hnl : ¬(i.now - s1.lastAttempt < 8000) := fun hlt => hg1 ⟨h1, hlt⟩
    show t ≤ i.now
    omega

/-- One non-connected poll preserves the in-flight marker and never
moves lastAttempt backwards below a past attach time. -/
theorem wifi_step_inv (s : WifiState) (i : WifiIn) (t : Nat)
    (hc : i.connected = false) (h1 : s.connecting = true)
    (h2 : t ≤ s.lastAttempt) :
    (tryWiFiConnectNonBlocking_V2 s i).state.connecting = true ∧
    t ≤ (tryWiFiConnectNonBlocking_V2 s i).state.lastAttempt := by
  unfold tryWiFiConnectNonBlocking_V2
  split_ifs with h3 h4 h5 h6
  · simp_all
  · exact ⟨h1, h2⟩
  · exact ⟨h1, h2⟩
  · exact attachPhase_inv _ i t h1 h2
  · exact attachPhase_inv _ i t h1 h2

/-- The invariant of wifi_step_inv propagated along any sequence of
polls that never observes the link attached. -/
theorem wifi_run_inv (t : Nat) (ins : List WifiIn)
    (hall : ∀ m ∈ ins, m.connected = false) :
    ∀ s : WifiState, s.connecting = true → t ≤ s.lastAttempt →
      (runWifi s ins).connecting = true ∧ t ≤ (runWifi s ins).lastAttempt := by
  induction ins with
  | nil =>
      intro s h1 h2
      exact ⟨h1, h2⟩
  | cons a l ih =>
      intro s h1 h2
      have ha : a.connected = false := hall a (List.mem_cons_self a l)
      have hl : ∀ m ∈ l, m.connected = false :=
        fun m hm => hall m (List.mem_cons_of_mem a hm)
      have step := wifi_step_inv s a t ha h1 h2
      have hr : runWifi s (a :: l)
          = runWifi (tryWiFiConnectNonBlocking_V2 s a).state l := rfl
      rw [hr]
      exact ih hl _ step.1 step.2

/-- C5: the Link Guard anti-spam discipline. First, any poll that
issues an attach call has passed both gates: if an attempt was in
flight, at least 8000 time-units elapsed since it, and in every case
the computed backoff delay elapsed since the last attempt. Second, at
the trace level: once a poll issues an attach, any later poll that
issues the next attach while the link was never observed attached in
between is at least 8000 time-units later, however many polls happen
in between. -/
theorem wifi_antispam_window :
    (∀ (s : WifiState) (i : WifiIn),
        (tryWiFiConnectNonBlocking_V2 s i).attach = true →
          (s.connecting = true → 8000 ≤ i.now - s.lastAttempt) ∧
          s.delayNext ≤ i.now - s.lastAttempt) ∧
    (∀ (s : WifiState) (i1 : WifiIn) (mid : List WifiIn) (i2 : WifiIn),
        (tryWiFiConnectNonBlocking_V2 s i1).attach = true →
        (∀ m ∈ mid, m.connected = false) →
        (tryWiFiConnectNonBlocking_V2
            (runWifi (tryWiFiConnectNonBlocking_V2 s i1).state mid) i2).attach = true →
        i1.now + 8000 ≤ i2.now) := by
  constructor
  · intro s i h
    exact ⟨(wifi_attach_gates s i h).1, (wifi_attach_gates s i h).2.1⟩
  · intro s i1 mid i2 h1 hmid h2
    have g1 := wifi_attach_gates s i1 h1
    have inv := wifi_run_inv i1.now mid hmid
        (tryWiFiConnectNonBlocking_V2 s i1).state g1.2.2.1 (le_of_eq g1.2.2.2.symm)
    have g2 := wifi_attach_gates _ i2 h2
    have h8000 := g2.1 inv.1
    omega

/-- Witness for wifi_antispam_window: from the initial state a poll at
time 100 issues the first attach; the next attach is only accepted at
time 8100, which is exactly 8000 after the first. -/
theorem wifi_antispam_window_witness :
    (tryWiFiConnectNonBlocking_V2 WifiState.start ⟨100, false, false, 0⟩).attach = true ∧
    (100 : Nat) + 8000 ≤ 8100 :=
  ⟨by decide,
   wifi_antispam_window.2 WifiState.start ⟨100, false, false, 0⟩ []
     ⟨8100, false, false, 0⟩ (by decide) (by simp) (by decide)⟩

/-- C6: a Session Guard poll whose connect attempt succeeds returns
false on that very call while resetting the attempt counter and the
backoff delay and marking the session as seen connected; the first poll
that returns true is the next one (any later poll that observes the
session attached), not the succeeding one. -/
theorem mqtt_success_reports_next_poll (s : MqttState) (i : MqttIn)
    (hw : i.wifiConnected = true) (hc : i.clientConnected = false)
    (hg : s.nextDelay ≤ i.now - s.lastAttempt) (hok : i.connectOk = true) :
    (tryMQTTConnectNonBlocking s i).2 = false ∧
    (tryMQTTConnectNonBlocking s i).1.tryCount = 0 ∧
    (tryMQTTConnectNonBlocking s i).1.nextDelay = 100 ∧
    (tryMQTTConnectNonBlocking s i).1.wasConnected = true ∧
    (∀ i2 : MqttIn, i2.wifiConnected = true → i2.clientConnected = true →
      (tryMQTTConnectNonBlocking (tryMQTTConnectNonBlocking s i).1 i2).2 = true) := by
  have hstep : tryMQTTConnectNonBlocking s i
      = ({ initDone := true, wasConnected := true, lastAttempt := i.now,
           tryCount := 0, nextDelay := 100 }, false) := by
    unfold tryMQTTConnectNonBlocking
    rw [hw, hc]
    simp only [Bool.true_eq_false, if_false, Bool.false_eq_true]
    rw [if_neg (by omega), if_pos (by rw [hok])]
  refine ⟨by rw [hstep], by rw [hstep], by rw [hstep], by rw [hstep], ?_⟩
  intro i2 hw2 hc2
  rw [hstep]
  unfold tryMQTTConnectNonBlocking
  rw [hw2, hc2]
  simp

/-- Witness for mqtt_success_reports_next_poll from the initial Session
Guard state: the successful attach poll at time 100 returns false and
the next poll, observing the attached session, returns true. -/
theorem mqtt_success_reports_next_poll_witness :
    (tryMQTTConnectNonBlocking MqttState.start ⟨100, true, false, true, 0⟩).2 = false ∧
    (tryMQTTConnectNonBlocking
      (tryMQTTConnectNonBlocking MqttState.start ⟨100, true, false, true, 0⟩).1
      ⟨200, true, true, true, 0⟩).2 = true := by
  have h := mqtt_success_reports_next_poll MqttState.start
    ⟨100, true, false, true, 0⟩ rfl rfl (by decide) rfl
  exact ⟨h.1, h.2.2.2.2 ⟨200, true, true, true, 0⟩ rfl rfl⟩

/-- C7: MQTTDiscovery publishes exactly when the session is attached, a
payload was supplied, the payload parses as JSON, the document holds a
device object and a non-empty cmps object; and whatever it publishes is
retained at quality-of-service 1 (the lowest level with at-least-once
delivery). The abort cases produce no publication at all. -/
theorem discovery_publish_iff (clientConnected : Bool) (gJson : Option String)
    (parse : String → Option JsonVal) (devId : String) :
    ((MQTTDiscovery clientConnected gJson parse devId).isSome = true ↔
      (clientConnected = true ∧
        ∃ p, gJson = some p ∧
          ∃ doc, parse p = some doc ∧
            isJsonObject (lookupKey doc "device") = true ∧
            ∃ cmps, lookupKey doc "cmps" = some (JsonVal.obj cmps) ∧ cmps ≠ [])) ∧
    (MQTTDiscovery clientConnected gJson parse devId).all
        (fun pc => pc.retained && (pc.qos == 1)) = true := by
  cases clientConnected with
  | false => simp [MQTTDiscovery]
  | true =>
    cases gJson with
    | none => simp [MQTTDiscovery]
    | some p =>
      cases hp : parse p with
      | none => simp [MQTTDiscovery, hp]
      | some doc =>
        by_cases hdev : isJsonObject (lookupKey doc "device") = true
        · cases hcm : lookupKey doc "cmps" with
          | none => simp [MQTTDiscovery, hp, hdev, hcm]
          | some v =>
            cases v with
            | obj cmps =>
              by_cases hz : cmps = []
              · simp [MQTTDiscovery, hp, hdev, hcm, hz]
              · simp [MQTTDiscovery, hp, hdev, hcm, hz, Option.all]
            | arr items => simp [MQTTDiscovery, hp, hdev, hcm]
            | str t => simp [MQTTDiscovery, hp, hdev, hcm]
            | num n => simp [MQTTDiscovery, hp, hdev, hcm]
            | boolean b => simp [MQTTDiscovery, hp, hdev, hcm]
            | nul => simp [MQTTDiscovery, hp, hdev, hcm]
        · simp only [Bool.not_eq_true] at hdev
          simp [MQTTDiscovery, hp, hdev]

/-- Witness for shortenKey_spec on a concrete 16-character identifier. -/
theorem shortenKey_spec_witness :
    HAIoTBridge.shortenKey "bbbbbbbbbbbbbbbb"
      = lastChars 14 "bbbbbbbbbbbbbbbb" ++ toString (sum8 "bbbbbbbbbbbbbbbb" % 10) ∧
    (HAIoTBridge.shortenKey "bbbbbbbbbbbbbbbb").length = 15 :=
  shortenKey_spec "bbbbbbbbbbbbbbbb" (by decide)
